import Mathlib

/-!
# Verification of the WebView bridge (src/lib/bridge.ts, src/lib/bridge-client.ts)

Shallow embedding of the host-side bridge module of the repository:
the handler registry (`registerHandler`, `unregisterHandler`), inbound
dispatch (`handleBridgeMessage`), the outbound channel (`sendToWeb`) and
the host-side correlator (`callWeb`).  Machine effects (messages injected
into the WebView, handler invocations, promise settlement) are made
explicit as state so that the behavioural properties of the bridge can be
stated and proved.

`JSON.parse` is a JavaScript builtin, not code of this repository; the
embedding therefore takes the decode result (`Option Json`) as input:
`none` models a string rejected by `JSON.parse` (the `catch` at
bridge.ts lines 174-176), `some v` a successfully parsed value.
-/

namespace Bridge

/-- JSON values, as produced by `JSON.parse`.  Objects are ordered field
lists; a decoded JSON object has pairwise distinct keys. -/
inductive Json where
  | null : Json
  | bool : Bool → Json
  | num : Int → Json
  | str : String → Json
  | arr : List Json → Json
  | obj : List (String × Json) → Json
deriving Repr

namespace Json

/-- Property access `v.k` on a decoded value: defined only on objects
(first binding wins; decoded JSON objects have unique keys). -/
def getField : Json → String → Option Json
  | .obj fs, k => fs.lookup k
  | _, _ => none

/-- JavaScript truthiness of a decoded JSON value (`if (v)`).
`undefined` is modelled by the absence of the field (`Option.none`). -/
def truthy : Json → Bool
  | .null => false
  | .bool b => b
  | .num n => n != 0
  | .str s => s != ""
  | .arr _ => true
  | .obj _ => true

end Json

/-- Truthiness of a possibly-absent property (`if (message.requestId)`,
`if (response.success)`): an absent or falsy field fails the test. -/
def fieldTruthy : Option Json → Bool
  | none => false
  | some j => j.truthy

/-- The inbound scheme checked at bridge.ts line 124. -/
def appScheme : String := "app://"

/-- JavaScript `p.startsWith(q)`, implemented over the character lists
so that concrete instances evaluate. -/
def strStartsWith (p q : String) : Bool := q.data.isPrefixOf p.data

/-- Dropping the first `n` characters of a string (the effect of
`replace('app://','')` on a string that starts with `app://`: the first
occurrence is the prefix). -/
def strDrop (p : String) (n : Nat) : String := ⟨p.data.drop n⟩

/-- Lines 124-128 of bridge.ts: dispatch proceeds iff `data.protocol` is
a string starting with `app://`; the action is the protocol with that
scheme stripped.  A falsy or absent protocol returns `false` at line
125; a truthy non-string protocol raises a `TypeError` on
`.startsWith`, caught by the outer `catch` — both are modelled by
`none`. -/
def getBridgeAction (data : Json) : Option String :=
  match data.getField "protocol" with
  | some (.str p) =>
      if strStartsWith p appScheme then some (strDrop p appScheme.data.length)
      else none
  | _ => none

/-- A message injected into the WebView by `sendToWeb` (bridge.ts lines
182-209).  The full injected envelope is
`{protocol: "native://"++action, action, payload, timestamp}`; the
`protocol` and `timestamp` fields are determined by `action` and the
clock and are omitted from the observable record. -/
structure OutMsg where
  action : String
  payload : Json
deriving Repr

/-- Handler options (bridge.ts lines 49-54): `timeout` is a millisecond
count, `once` a flag.  `if (options?.timeout)` is a truthiness test, so
`timeout = some 0` sets no timer. -/
structure HandlerOptions where
  timeout : Option Nat
  once : Bool
deriving Repr

/-- Whether `registerHandler` arms the timeout timer (line 72). -/
def HandlerOptions.timerArmed (o : HandlerOptions) : Bool :=
  match o.timeout with
  | some t => t != 0
  | none => false

/-- Observable state of the host-side bridge module.  `handlers` embeds
the module-level `Map` (bridge.ts line 36) keyed by action, recording
the registration options; `webViewAttached` whether `webViewInstance`
is non-null; `sent` the messages injected into the web so far (in
order); `invoked` a ghost log of raw-handler invocations, recording the
action and the exact payload value handed to the handler. -/
structure BridgeState where
  handlers : List (String × HandlerOptions)
  webViewAttached : Bool
  sent : List OutMsg
  invoked : List (String × Option Json)
deriving Repr

/-- `Map.set` semantics: replace the binding if the key is present,
otherwise append. -/
def setHandler (hs : List (String × HandlerOptions)) (a : String)
    (o : HandlerOptions) : List (String × HandlerOptions) :=
  if hs.any (fun p => p.1 == a) then
    hs.map (fun p => if p.1 == a then (a, o) else p)
  else hs ++ [(a, o)]

/-- `Map.delete` semantics (bridge.ts lines 91 and 105). -/
def removeHandler (hs : List (String × HandlerOptions)) (a : String) :
    List (String × HandlerOptions) :=
  hs.filter (fun p => p.1 != a)

/-- `registerHandler` (bridge.ts line 97): stores the wrapped handler
under `action`, replacing any previous one. -/
def registerHandlerSt (st : BridgeState) (a : String) (o : HandlerOptions) :
    BridgeState :=
  { st with handlers := setHandler st.handlers a o }

/-- `unregisterHandler` (bridge.ts lines 104-107). -/
def unregisterHandlerSt (st : BridgeState) (a : String) : BridgeState :=
  { st with handlers := removeHandler st.handlers a }

/-- `sendToWeb` (bridge.ts lines 182-209): a no-op when no WebView is
attached (lines 183-186), otherwise appends the injected message.  It
never throws. -/
def sendToWeb (st : BridgeState) (a : String) (payload : Json) : BridgeState :=
  if st.webViewAttached then { st with sent := st.sent ++ [⟨a, payload⟩] }
  else st

/-- The reply payload built by the `respond` closure of
`handleBridgeMessage` (bridge.ts lines 140-148): always `success: true`,
the handler's response data nested under `data`. -/
def successReply (rid : Json) (d : Json) : Json :=
  .obj [("requestId", rid), ("success", .bool true), ("data", d)]

/-- The reply payload built on a caught handler exception (lines
154-160) or an unknown action (lines 164-170). -/
def failureReply (rid : Json) (msg : String) : Json :=
  .obj [("requestId", rid), ("success", .bool false), ("error", .str msg)]

/-- The synthetic data the timeout timer passes to `respond`
(bridge.ts line 76). -/
def timeoutData (a : String) : Json :=
  .obj [("success", .bool false), ("error", .str ("Handler timeout: " ++ a))]

/-- The guard `if (message.requestId)` shared by all three reply sites
of `handleBridgeMessage` (lines 141, 154, 164): a `bridgeResponse` is
sent only when the request id is truthy. -/
def replyIfTruthy (rid : Option Json) (st : BridgeState) (mk : Json → Json) :
    BridgeState :=
  match rid with
  | some r => if r.truthy then sendToWeb st "bridgeResponse" (mk r) else st
  | none => st

/-- The `respond` closure created by `handleBridgeMessage` (lines
140-148): sends a `bridgeResponse` only when the message's `requestId`
is truthy, and then always with `success: true`. -/
def dispatchRespond (rid : Option Json) (st : BridgeState) (d : Json) :
    BridgeState :=
  replyIfTruthy rid st (fun r => successReply r d)

/-- Per-invocation state of one `wrappedHandler` run (bridge.ts lines
67-95): the `responded` flag, whether the timeout timer is armed and
pending, and the enclosing message's action and request id. -/
structure Invocation where
  action : String
  rid : Option Json
  responded : Bool
  timerArmed : Bool
deriving Repr

/-- `wrappedRespond` (bridge.ts lines 82-87): first call wins; it clears
the timer and forwards to the dispatch-level `respond`. -/
def wrappedRespond (inv : Invocation) (st : BridgeState) (d : Json) :
    Invocation × BridgeState :=
  if inv.responded then (inv, st)
  else ({ inv with responded := true, timerArmed := false },
        dispatchRespond inv.rid st d)

/-- The timeout timer callback (bridge.ts lines 73-78): fires only if
the timer is still armed; if `respond` has not been called it sends the
synthetic timeout data through the dispatch-level `respond`. -/
def fireTimer (inv : Invocation) (st : BridgeState) : Invocation × BridgeState :=
  if inv.timerArmed then
    if inv.responded then ({ inv with timerArmed := false }, st)
    else ({ inv with timerArmed := false, responded := true },
          dispatchRespond inv.rid st (timeoutData inv.action))
  else (inv, st)

/-- Scripted synchronous behaviour of a raw handler during one
invocation: either it runs to completion calling `respond` on the given
values in order, or it calls `respond` on `pre` and then throws an error
whose extracted message (`error instanceof Error ? error.message :
'Unknown error'`, line 158) is `msg`. -/
inductive SyncScript where
  | returns (calls : List Json)
  | throws (pre : List Json) (msg : String)
deriving Repr

/-- Events after the synchronous part of a dispatch returns: a late
`respond` call (e.g. from an async continuation of the handler), the
handler-timeout timer firing, or the handler's returned promise
rejecting. -/
inductive PostEvent where
  | respondCall (d : Json)
  | timerFires
  | promiseRejects (msg : String)
deriving Repr

/-- One post-dispatch event step.  A rejection of the handler's returned
promise is unobserved: the call `handler(message.payload, respond)` at
bridge.ts line 151 neither awaits the result nor attaches a rejection
continuation, so the surrounding `catch` never fires for it. -/
def stepEvent : Invocation × BridgeState → PostEvent → Invocation × BridgeState
  | (inv, st), .respondCall d => wrappedRespond inv st d
  | (inv, st), .timerFires => fireTimer inv st
  | (inv, st), .promiseRejects _ => (inv, st)

/-- Run a sequence of post-dispatch events. -/
def runEvents (p : Invocation × BridgeState) (evs : List PostEvent) :
    Invocation × BridgeState :=
  evs.foldl stepEvent p

/-- The handler's synchronous `respond` calls, folded through
`wrappedRespond`. -/
def runSync (inv : Invocation) (st : BridgeState) (calls : List Json) :
    Invocation × BridgeState :=
  calls.foldl (fun p d => wrappedRespond p.1 p.2 d) (inv, st)

/-- Result of one `handleBridgeMessage` call: the returned boolean, the
bridge state after the synchronous part, and, when a handler was
invoked, the live invocation residue (its timer and `responded` flag
survive the dispatch and react to later events). -/
structure DispatchResult where
  handled : Bool
  state : BridgeState
  residue : Option Invocation
deriving Repr

/-- The updates `wrappedHandler` performs before the raw handler body
runs (bridge.ts lines 89-94): the `once` removal of the registry entry
(line 91) and the ghost record of the invocation with the raw payload
value passed at line 94/151. -/
def preInvoke (st : BridgeState) (action : String) (payload : Option Json)
    (opts : HandlerOptions) : BridgeState :=
  let st0 := if opts.once then unregisterHandlerSt st action else st
  { st0 with invoked := st0.invoked ++ [(action, payload)] }

/-- The found-handler branch of `handleBridgeMessage` (bridge.ts lines
137-161), i.e. one run of `wrappedHandler` (lines 67-95): initialise
the `responded` flag, arm the timer iff `options.timeout` is truthy,
perform `preInvoke`, then run the handler's synchronous script; a
synchronous throw lands in the inner `catch` (lines 152-161) which
sends a failure reply when the request id is truthy. -/
def invokeHandler (st : BridgeState) (action : String)
    (rid payload : Option Json) (opts : HandlerOptions)
    (script : SyncScript) : DispatchResult :=
  match script with
  | .returns calls =>
      let p := runSync ⟨action, rid, false, opts.timerArmed⟩
        (preInvoke st action payload opts) calls
      ⟨true, p.2, some p.1⟩
  | .throws pre msg =>
      let p := runSync ⟨action, rid, false, opts.timerArmed⟩
        (preInvoke st action payload opts) pre
      ⟨true, replyIfTruthy rid p.2 (fun r => failureReply r msg), some p.1⟩

/-- `handleBridgeMessage` (bridge.ts lines 119-177).  The decode result
of `JSON.parse(messageData)` is the input; the scripted behaviour of the
looked-up handler is a parameter (unused when no handler matches).
Every branch returns a boolean: the outer `catch` converts any raised
`TypeError` into `false`, and no exception escapes — the embedding is a
total function. -/
def handleBridgeMessage (st : BridgeState) (decoded : Option Json)
    (script : SyncScript) : DispatchResult :=
  match decoded with
  | none => ⟨false, st, none⟩
  | some data =>
    match getBridgeAction data with
    | none => ⟨false, st, none⟩
    | some action =>
      match st.handlers.lookup action with
      | some opts =>
          invokeHandler st action (data.getField "requestId")
            (data.getField "payload") opts script
      | none =>
          -- lines 162-171: unknown action
          ⟨true,
           replyIfTruthy (data.getField "requestId") st
             (fun r => failureReply r ("Unknown action: " ++ action)),
           none⟩

/-- Dispatch followed by a sequence of post-dispatch events on the
invocation residue (if any). -/
def afterEvents (r : DispatchResult) (evs : List PostEvent) : BridgeState :=
  match r.residue with
  | some inv => (runEvents (inv, r.state) evs).2
  | none => r.state

/-! ## The host-side correlator `callWeb` (bridge.ts lines 214-242) -/

/-- Settlement state of the promise returned by `callWeb`.  `resolved`
carries `response.data`, which may be absent (`resolve(undefined)`). -/
inductive PromiseState where
  | pending
  | resolved (v : Option Json)
  | rejectedWith (msg : String)
deriving Repr

/-- JavaScript promise settlement: the first writer wins, later
`resolve`/`reject` calls are no-ops. -/
def PromiseState.settle : PromiseState → PromiseState → PromiseState
  | .pending, out => out
  | s, _ => s

/-- Bookkeeping for one in-flight `callWeb` request: its generated
request id, the promise, and whether the timeout timer is still armed. -/
structure CallSession where
  requestId : String
  promise : PromiseState
  timerArmed : Bool
deriving Repr

/-- The name of the one-shot reply handler registered for a request
(bridge.ts line 228). -/
def responseHandlerName (rid : String) : String := "__response_" ++ rid

/-- `callWeb` (bridge.ts lines 214-242): generate a request id (taken
here as a parameter in place of `Date.now()`/`Math.random()`), arm the
timeout timer, register the one-shot reply handler (with no options:
line 229), and send the request to the web.  The spread
`{ ...payload, requestId, responseAction }` is modelled by appending
the two generated fields to a payload assumed not to contain them. -/
def callWeb (st : BridgeState) (action : String)
    (payload : List (String × Json)) (rid : String) :
    BridgeState × CallSession :=
  let rh := responseHandlerName rid
  let st1 := registerHandlerSt st rh ⟨none, false⟩
  let st2 := sendToWeb st1 action
    (.obj (payload ++ [("requestId", .str rid), ("responseAction", .str rh)]))
  (st2, ⟨rid, .pending, true⟩)

/-- The `callWeb` timeout callback (bridge.ts lines 223-225): it only
rejects the promise.  In particular the bridge state — including the
registry entry for the one-shot reply handler — is untouched. -/
def callWebTimeout (action : String) (p : BridgeState × CallSession) :
    BridgeState × CallSession :=
  if p.2.timerArmed then
    (p.1,
     { p.2 with
       timerArmed := false
       promise := p.2.promise.settle
         (.rejectedWith ("Request timeout: " ++ action)) })
  else p

/-- `response.error || 'Unknown error'` (bridge.ts line 235): a
non-empty error string is used, any falsy value falls back to
`'Unknown error'`.  (A truthy non-string error value would be
string-coerced by `new Error`; no inbound reply in this development
carries one.) -/
def replyErrMsg : Option Json → String
  | some (.str s) => if s != "" then s else "Unknown error"
  | _ => "Unknown error"

/-- How the one-shot reply handler settles the promise (bridge.ts lines
232-236): a truthy `success` resolves with `response.data`, otherwise
the promise is rejected with the extracted error message. -/
def replyOutcome (response : Json) : PromiseState :=
  if fieldTruthy (response.getField "success") then
    .resolved (response.getField "data")
  else .rejectedWith (replyErrMsg (response.getField "error"))

/-- The one-shot reply handler registered by `callWeb` (bridge.ts lines
229-237), invoked with an inbound reply payload: clear the timer,
unregister itself, then resolve or reject. -/
def callWebOnResponse (p : BridgeState × CallSession) (response : Json) :
    BridgeState × CallSession :=
  (unregisterHandlerSt p.1 (responseHandlerName p.2.requestId),
   { p.2 with
     timerArmed := false
     promise := p.2.promise.settle (replyOutcome response) })

/-! ## Basic lemmas -/

theorem sendToWeb_handlers (st : BridgeState) (a : String) (j : Json) :
    (sendToWeb st a j).handlers = st.handlers := by
  simp only [sendToWeb]; split <;> rfl

theorem sendToWeb_invoked (st : BridgeState) (a : String) (j : Json) :
    (sendToWeb st a j).invoked = st.invoked := by
  simp only [sendToWeb]; split <;> rfl

theorem sendToWeb_attached (st : BridgeState) (a : String) (j : Json) :
    (sendToWeb st a j).webViewAttached = st.webViewAttached := by
  simp only [sendToWeb]; split <;> rfl

theorem replyIfTruthy_handlers (rid : Option Json) (st : BridgeState)
    (mk : Json → Json) : (replyIfTruthy rid st mk).handlers = st.handlers := by
  cases rid with
  | none => rfl
  | some r =>
      simp only [replyIfTruthy]
      split
      · exact sendToWeb_handlers ..
      · rfl

theorem replyIfTruthy_invoked (rid : Option Json) (st : BridgeState)
    (mk : Json → Json) : (replyIfTruthy rid st mk).invoked = st.invoked := by
  cases rid with
  | none => rfl
  | some r =>
      simp only [replyIfTruthy]
      split
      · exact sendToWeb_invoked ..
      · rfl

theorem replyIfTruthy_attached (rid : Option Json) (st : BridgeState)
    (mk : Json → Json) :
    (replyIfTruthy rid st mk).webViewAttached = st.webViewAttached := by
  cases rid with
  | none => rfl
  | some r =>
      simp only [replyIfTruthy]
      split
      · exact sendToWeb_attached ..
      · rfl

/-- A falsy (or absent) request id means no reply is ever sent. -/
theorem replyIfTruthy_falsy (rid : Option Json) (st : BridgeState)
    (mk : Json → Json) (h : fieldTruthy rid = false) :
    replyIfTruthy rid st mk = st := by
  cases rid with
  | none => rfl
  | some r => simp only [fieldTruthy] at h; simp [replyIfTruthy, h]

theorem dispatchRespond_handlers (rid : Option Json) (st : BridgeState) (d : Json) :
    (dispatchRespond rid st d).handlers = st.handlers :=
  replyIfTruthy_handlers ..

theorem dispatchRespond_invoked (rid : Option Json) (st : BridgeState) (d : Json) :
    (dispatchRespond rid st d).invoked = st.invoked :=
  replyIfTruthy_invoked ..

theorem dispatchRespond_attached (rid : Option Json) (st : BridgeState) (d : Json) :
    (dispatchRespond rid st d).webViewAttached = st.webViewAttached :=
  replyIfTruthy_attached ..

/-- A falsy (or absent) request id means `respond` never sends. -/
theorem dispatchRespond_falsy (rid : Option Json) (st : BridgeState) (d : Json)
    (h : fieldTruthy rid = false) : dispatchRespond rid st d = st :=
  replyIfTruthy_falsy _ _ _ h

theorem wrappedRespond_rid (inv : Invocation) (st : BridgeState) (d : Json) :
    ((wrappedRespond inv st d).1).rid = inv.rid := by
  simp only [wrappedRespond]; split <;> rfl

theorem wrappedRespond_handlers (inv : Invocation) (st : BridgeState) (d : Json) :
    ((wrappedRespond inv st d).2).handlers = st.handlers := by
  simp only [wrappedRespond]; split
  · rfl
  · exact dispatchRespond_handlers ..

theorem wrappedRespond_invoked (inv : Invocation) (st : BridgeState) (d : Json) :
    ((wrappedRespond inv st d).2).invoked = st.invoked := by
  simp only [wrappedRespond]; split
  · rfl
  · exact dispatchRespond_invoked ..

theorem wrappedRespond_attached (inv : Invocation) (st : BridgeState) (d : Json) :
    ((wrappedRespond inv st d).2).webViewAttached = st.webViewAttached := by
  simp only [wrappedRespond]; split
  · rfl
  · exact dispatchRespond_attached ..

/-- After `respond` has been called once, further calls are no-ops. -/
theorem wrappedRespond_done (inv : Invocation) (st : BridgeState) (d : Json)
    (h : inv.responded = true) : wrappedRespond inv st d = (inv, st) := by
  simp [wrappedRespond, h]

theorem runSync_done (inv : Invocation) (st : BridgeState) (calls : List Json)
    (h : inv.responded = true) : runSync inv st calls = (inv, st) := by
  induction calls with
  | nil => rfl
  | cons d ds ih =>
      simp only [runSync, List.foldl_cons]
      rw [show (wrappedRespond inv st d) = (inv, st) from wrappedRespond_done inv st d h]
      exact ih

theorem runSync_handlers (calls : List Json) (inv : Invocation) (st : BridgeState) :
    ((runSync inv st calls).2).handlers = st.handlers := by
  induction calls generalizing inv st with
  | nil => rfl
  | cons d ds ih =>
      simp only [runSync, List.foldl_cons] at *
      rw [ih]
      exact wrappedRespond_handlers ..

theorem runSync_invoked (calls : List Json) (inv : Invocation) (st : BridgeState) :
    ((runSync inv st calls).2).invoked = st.invoked := by
  induction calls generalizing inv st with
  | nil => rfl
  | cons d ds ih =>
      simp only [runSync, List.foldl_cons] at *
      rw [ih]
      exact wrappedRespond_invoked ..

theorem runSync_attached (calls : List Json) (inv : Invocation) (st : BridgeState) :
    ((runSync inv st calls).2).webViewAttached = st.webViewAttached := by
  induction calls generalizing inv st with
  | nil => rfl
  | cons d ds ih =>
      simp only [runSync, List.foldl_cons] at *
      rw [ih]
      exact wrappedRespond_attached ..

/-- A settled invocation with a disarmed timer reacts to no further
event. -/
theorem stepEvent_settled (inv : Invocation) (st : BridgeState) (ev : PostEvent)
    (h : inv.responded = true) (ht : inv.timerArmed = false) :
    stepEvent (inv, st) ev = (inv, st) := by
  cases ev with
  | respondCall d => exact wrappedRespond_done inv st d h
  | timerFires => simp [stepEvent, fireTimer, ht]
  | promiseRejects m => rfl

theorem runEvents_settled (evs : List PostEvent) (inv : Invocation) (st : BridgeState)
    (h : inv.responded = true) (ht : inv.timerArmed = false) :
    runEvents (inv, st) evs = (inv, st) := by
  induction evs with
  | nil => rfl
  | cons ev evs ih =>
      simp only [runEvents, List.foldl_cons]
      rw [stepEvent_settled inv st ev h ht]
      exact ih

theorem fireTimer_rid (inv : Invocation) (st : BridgeState) :
    ((fireTimer inv st).1).rid = inv.rid := by
  simp only [fireTimer]; split <;> [skip; rfl]
  split <;> rfl

theorem stepEvent_rid (inv : Invocation) (st : BridgeState) (ev : PostEvent) :
    ((stepEvent (inv, st) ev).1).rid = inv.rid := by
  cases ev with
  | respondCall d => exact wrappedRespond_rid ..
  | timerFires => exact fireTimer_rid ..
  | promiseRejects m => rfl

theorem wrappedRespond_falsy (inv : Invocation) (st : BridgeState) (d : Json)
    (h : fieldTruthy inv.rid = false) : (wrappedRespond inv st d).2 = st := by
  simp only [wrappedRespond]; split
  · rfl
  · exact dispatchRespond_falsy _ _ _ h

theorem fireTimer_falsy (inv : Invocation) (st : BridgeState)
    (h : fieldTruthy inv.rid = false) : (fireTimer inv st).2 = st := by
  simp only [fireTimer]
  split
  · split
    · rfl
    · exact dispatchRespond_falsy _ _ _ h
  · rfl

theorem stepEvent_falsy (inv : Invocation) (st : BridgeState) (ev : PostEvent)
    (h : fieldTruthy inv.rid = false) : (stepEvent (inv, st) ev).2 = st := by
  cases ev with
  | respondCall d => exact wrappedRespond_falsy _ _ _ h
  | timerFires => exact fireTimer_falsy _ _ h
  | promiseRejects m => rfl

theorem runEvents_falsy (evs : List PostEvent) (inv : Invocation) (st : BridgeState)
    (h : fieldTruthy inv.rid = false) : (runEvents (inv, st) evs).2 = st := by
  induction evs generalizing inv st with
  | nil => rfl
  | cons ev evs ih =>
      simp only [runEvents, List.foldl_cons] at *
      rcases hp : stepEvent (inv, st) ev with ⟨inv2, st2⟩
      have hst : st2 = st := by
        have := stepEvent_falsy inv st ev h
        rw [hp] at this
        exact this
      have hrid : inv2.rid = inv.rid := by
        have := stepEvent_rid inv st ev
        rw [hp] at this
        exact this
      rw [hst]
      exact ih inv2 st (by rw [hrid]; exact h)

theorem runSync_rid (calls : List Json) (inv : Invocation) (st : BridgeState) :
    ((runSync inv st calls).1).rid = inv.rid := by
  induction calls generalizing inv st with
  | nil => rfl
  | cons d ds ih =>
      simp only [runSync, List.foldl_cons] at *
      rw [ih]
      exact wrappedRespond_rid ..

theorem runSync_falsy (calls : List Json) (inv : Invocation) (st : BridgeState)
    (h : fieldTruthy inv.rid = false) : (runSync inv st calls).2 = st := by
  induction calls generalizing inv st with
  | nil => rfl
  | cons d ds ih =>
      simp only [runSync, List.foldl_cons] at *
      rcases hp : wrappedRespond inv st d with ⟨inv2, st2⟩
      have hst : st2 = st := by
        have := wrappedRespond_falsy inv st d h
        rw [hp] at this
        exact this
      have hrid : inv2.rid = inv.rid := by
        have := wrappedRespond_rid inv st d
        rw [hp] at this
        exact this
      rw [hst]
      exact ih inv2 st (by rw [hrid]; exact h)

theorem preInvoke_sent (st : BridgeState) (a : String) (payload : Option Json)
    (opts : HandlerOptions) : (preInvoke st a payload opts).sent = st.sent := by
  simp only [preInvoke]; split <;> rfl

theorem preInvoke_attached (st : BridgeState) (a : String) (payload : Option Json)
    (opts : HandlerOptions) :
    (preInvoke st a payload opts).webViewAttached = st.webViewAttached := by
  simp only [preInvoke]; split <;> rfl

theorem preInvoke_invoked (st : BridgeState) (a : String) (payload : Option Json)
    (opts : HandlerOptions) :
    (preInvoke st a payload opts).invoked = st.invoked ++ [(a, payload)] := by
  simp only [preInvoke]; split <;> rfl

theorem preInvoke_handlers_once (st : BridgeState) (a : String)
    (payload : Option Json) (opts : HandlerOptions) (h : opts.once = true) :
    (preInvoke st a payload opts).handlers = removeHandler st.handlers a := by
  simp [preInvoke, h, unregisterHandlerSt]

/-- The first `respond` call settles the invocation, so the tail of the
call list has no effect. -/
theorem runSync_cons_head (inv : Invocation) (st : BridgeState) (d : Json)
    (ds : List Json) (h : inv.responded = false) :
    runSync inv st (d :: ds) = runSync inv st [d] := by
  simp only [runSync, List.foldl_cons, List.foldl_nil]
  have hw : wrappedRespond inv st d
      = ({ inv with responded := true, timerArmed := false },
         dispatchRespond inv.rid st d) := by
    simp [wrappedRespond, h]
  rw [hw]
  exact runSync_done _ _ ds rfl

/-! ## Claims -/

/-- **C6**: an input string that `JSON.parse` rejects (`decoded = none`),
or whose decoded value lacks a string `protocol` field with the `app://`
scheme (`getBridgeAction data = none`), makes `handleBridgeMessage`
return `false` with the bridge state untouched: no handler invocation,
no reply, and — the embedding being a total function, with the outer
`catch` of bridge.ts lines 120/174 folded in — no escaping exception. -/
theorem c6_decode_robustness (st : BridgeState) (script : SyncScript) :
    handleBridgeMessage st none script = ⟨false, st, none⟩ ∧
    ∀ data : Json, getBridgeAction data = none →
      handleBridgeMessage st (some data) script = ⟨false, st, none⟩ := by
  refine ⟨rfl, fun data h => ?_⟩
  simp only [handleBridgeMessage, h]

/-- Witness for C6 at a concrete non-bridge input: the JSON string
`"hello"` decodes but carries no `protocol` field. -/
theorem c6_decode_robustness_witness :
    handleBridgeMessage ⟨[], true, [], []⟩ (some (.str "hello")) (.returns [])
      = ⟨false, ⟨[], true, [], []⟩, none⟩ :=
  (c6_decode_robustness ⟨[], true, [], []⟩ (.returns [])).2 (.str "hello") rfl

/-- **C8**: calling `respond` n ≥ 1 times has the effect of calling it
exactly once — the whole dispatch result (state reached, messages sent,
invocation residue) for a handler scripted to respond on `d :: ds`
equals the one for a handler scripted to respond only on `d`. -/
theorem c8_respond_idempotent (st : BridgeState) (decoded : Option Json)
    (d : Json) (ds : List Json) :
    handleBridgeMessage st decoded (.returns (d :: ds)) =
      handleBridgeMessage st decoded (.returns [d]) := by
  cases decoded with
  | none => rfl
  | some data =>
      cases hact : getBridgeAction data with
      | none => simp only [handleBridgeMessage, hact]
      | some a =>
          cases hl : st.handlers.lookup a with
          | none => simp only [handleBridgeMessage, hact, hl]
          | some opts =>
              simp only [handleBridgeMessage, hact, hl, invokeHandler]
              rw [runSync_cons_head _ _ _ _ rfl]

/-- **C10**: `handleBridgeMessage` is total by construction (every match
branch returns a `DispatchResult`), and for a message whose `requestId`
is absent or falsy no reply is ever sent to the web — not by the
handler's `respond` calls, not by the handler timeout, not by the inner
`catch`, and not by the unknown-action branch — no matter which events
follow the dispatch. -/
theorem c10_no_reply_without_requestId (st : BridgeState) (data : Json)
    (script : SyncScript) (evs : List PostEvent)
    (h : fieldTruthy (data.getField "requestId") = false) :
    (afterEvents (handleBridgeMessage st (some data) script) evs).sent = st.sent ∧
    (afterEvents (handleBridgeMessage st none script) evs).sent = st.sent := by
  refine ⟨?_, rfl⟩
  cases hact : getBridgeAction data with
  | none => simp only [handleBridgeMessage, hact, afterEvents]
  | some a =>
      cases hl : st.handlers.lookup a with
      | none =>
          simp only [handleBridgeMessage, hact, hl, afterEvents]
          rw [replyIfTruthy_falsy _ _ _ h]
      | some opts =>
          cases script with
          | returns calls =>
              simp only [handleBridgeMessage, hact, hl, invokeHandler, afterEvents]
              rcases hp : runSync ⟨a, data.getField "requestId", false,
                  opts.timerArmed⟩ (preInvoke st a (data.getField "payload") opts)
                  calls with ⟨inv2, st2⟩
              dsimp only
              have hst2 : st2 = preInvoke st a (data.getField "payload") opts := by
                have := runSync_falsy calls ⟨a, data.getField "requestId", false,
                  opts.timerArmed⟩ (preInvoke st a (data.getField "payload") opts) h
                rw [hp] at this
                exact this
              have hrid2 : inv2.rid = data.getField "requestId" := by
                have := runSync_rid calls ⟨a, data.getField "requestId", false,
                  opts.timerArmed⟩ (preInvoke st a (data.getField "payload") opts)
                rw [hp] at this
                exact this
              rw [runEvents_falsy evs inv2 st2 (by rw [hrid2]; exact h)]
              rw [hst2, preInvoke_sent]
          | throws pre msg =>
              simp only [handleBridgeMessage, hact, hl, invokeHandler, afterEvents]
              rcases hp : runSync ⟨a, data.getField "requestId", false,
                  opts.timerArmed⟩ (preInvoke st a (data.getField "payload") opts)
                  pre with ⟨inv2, st2⟩
              dsimp only
              have hst2 : st2 = preInvoke st a (data.getField "payload") opts := by
                have := runSync_falsy pre ⟨a, data.getField "requestId", false,
                  opts.timerArmed⟩ (preInvoke st a (data.getField "payload") opts) h
                rw [hp] at this
                exact this
              have hrid2 : inv2.rid = data.getField "requestId" := by
                have := runSync_rid pre ⟨a, data.getField "requestId", false,
                  opts.timerArmed⟩ (preInvoke st a (data.getField "payload") opts)
                rw [hp] at this
                exact this
              rw [replyIfTruthy_falsy _ _ _ h]
              rw [runEvents_falsy evs inv2 st2 (by rw [hrid2]; exact h)]
              rw [hst2, preInvoke_sent]

/-- Witness for C10: a registered handler, a message with no
`requestId`, a handler that responds and then the timer firing — the
web receives nothing. -/
theorem c10_no_reply_without_requestId_witness :
    (afterEvents
      (handleBridgeMessage ⟨[("ping", ⟨some 50, false⟩)], true, [], []⟩
        (some (.obj [("protocol", .str "app://ping")]))
        (.returns [.str "pong"]))
      [.timerFires]).sent = [] :=
  (c10_no_reply_without_requestId ⟨[("ping", ⟨some 50, false⟩)], true, [], []⟩
    (.obj [("protocol", .str "app://ping")]) (.returns [.str "pong"])
    [.timerFires] rfl).1

/-- Bridge state with one persistent handler for `upload`. -/
def c3State : BridgeState := ⟨[("upload", ⟨none, false⟩)], true, [], []⟩

/-- A sub-object of the binary-tag shape of spec §4.5/§6:
`{tag:"binary", data:<base64>, mimeType, name, size}`. -/
def binDescriptor : Json :=
  .obj [("tag", .str "binary"), ("data", .str "aGVsbG8="),
        ("mimeType", .str "text/plain"), ("name", .str "hello.txt"),
        ("size", .num 5)]

/-- A payload containing a binary-tagged sub-object. -/
def c3Payload : Json :=
  .obj [("file", binDescriptor), ("note", .str "see attachment")]

def c3Msg : Json :=
  .obj [("protocol", .str "app://upload"), ("payload", c3Payload),
        ("requestId", .str "r3")]

/-- **C3 (counterexample)**: dispatching a message whose payload contains
a binary-tagged sub-object hands the handler exactly the raw decoded
payload: `handleBridgeMessage` passes `message.payload` through
unchanged (bridge.ts line 151) — there is no recursive transcoding, no
structured-descriptor replacement and no lazy base64 accessor anywhere
in the host module. -/
theorem c3_counterexample :
    (handleBridgeMessage c3State (some c3Msg) (.returns [])).state.invoked
      = [("upload", some c3Payload)] ∧
    c3Payload.getField "file" = some binDescriptor :=
  ⟨rfl, rfl⟩

/-- **C3 (amended)**: for every inbound message dispatched to a
registered handler, the payload handed to the handler is exactly the
raw decoded `payload` field — binary-tagged sub-objects included,
untouched. -/
theorem c3_no_transcoding (st : BridgeState) (data : Json) (script : SyncScript)
    (a : String) (opts : HandlerOptions)
    (hact : getBridgeAction data = some a)
    (hl : st.handlers.lookup a = some opts) :
    (handleBridgeMessage st (some data) script).state.invoked =
      st.invoked ++ [(a, data.getField "payload")] := by
  cases script with
  | returns calls =>
      simp only [handleBridgeMessage, hact, hl, invokeHandler]
      rw [runSync_invoked, preInvoke_invoked]
  | throws pre msg =>
      simp only [handleBridgeMessage, hact, hl, invokeHandler]
      rw [replyIfTruthy_invoked, runSync_invoked, preInvoke_invoked]

/-- Witness for the amended C3 at the binary-payload message. -/
theorem c3_no_transcoding_witness :
    (handleBridgeMessage c3State (some c3Msg) (.returns [])).state.invoked
      = c3State.invoked ++ [("upload", c3Msg.getField "payload")] :=
  c3_no_transcoding c3State c3Msg (.returns []) "upload" ⟨none, false⟩ rfl rfl

/-- Bridge state with one persistent handler for `work`. -/
def c5State : BridgeState := ⟨[("work", ⟨none, false⟩)], true, [], []⟩

def c5Msg : Json :=
  .obj [("protocol", .str "app://work"), ("requestId", .str "r5")]

def c5MsgNoRid : Json := .obj [("protocol", .str "app://work")]

/-- **C5 (counterexample)**: a correlated message whose handler returns
a promise that rejects gets NO failure reply: the call at bridge.ts
line 151 neither awaits the handler's returned promise nor attaches a
rejection continuation, so the `catch` at line 152 never sees the
rejection and nothing is sent. -/
theorem c5_counterexample :
    (afterEvents (handleBridgeMessage c5State (some c5Msg) (.returns []))
        [.promiseRejects "boom"]).sent = [] ∧
    (handleBridgeMessage c5State (some c5Msg) (.returns [])).handled = true :=
  ⟨rfl, rfl⟩

/-- **C5 (amended)**: only a synchronous throw is caught: for a
correlated message (truthy `requestId`) the inner `catch` auto-sends a
failure reply carrying the caught error's message; for an uncorrelated
message the throw is only logged — nothing is sent — and dispatch still
returns `true` (the exception does not propagate). -/
theorem c5_sync_throw (st : BridgeState) (data : Json) (a : String)
    (opts : HandlerOptions) (msg : String)
    (hact : getBridgeAction data = some a)
    (hl : st.handlers.lookup a = some opts)
    (hAtt : st.webViewAttached = true) :
    (∀ r : Json, data.getField "requestId" = some r → r.truthy = true →
      (handleBridgeMessage st (some data) (.throws [] msg)).state.sent
        = st.sent ++ [⟨"bridgeResponse", failureReply r msg⟩]) ∧
    (data.getField "requestId" = none →
      (handleBridgeMessage st (some data) (.throws [] msg)).state.sent = st.sent ∧
      (handleBridgeMessage st (some data) (.throws [] msg)).handled = true) := by
  constructor
  · intro r hr htr
    simp only [handleBridgeMessage, hact, hl, invokeHandler, hr]
    simp only [runSync, List.foldl_nil]
    have hatt1 : (preInvoke st a (data.getField "payload") opts).webViewAttached
        = true := by rw [preInvoke_attached]; exact hAtt
    simp [replyIfTruthy, htr, sendToWeb, hatt1, preInvoke_sent]
  · intro hr
    simp only [handleBridgeMessage, hact, hl, invokeHandler, hr]
    simp only [runSync, List.foldl_nil]
    exact ⟨preInvoke_sent .., trivial⟩

/-- Witness for the amended C5: a correlated message gets the failure
reply; an uncorrelated one gets nothing and dispatch reports `true`. -/
theorem c5_sync_throw_witness :
    (handleBridgeMessage c5State (some c5Msg) (.throws [] "boom")).state.sent
      = c5State.sent ++ [⟨"bridgeResponse", failureReply (.str "r5") "boom"⟩] ∧
    (handleBridgeMessage c5State (some c5MsgNoRid) (.throws [] "boom")).state.sent
      = c5State.sent :=
  ⟨(c5_sync_throw c5State c5Msg "work" ⟨none, false⟩ "boom" rfl rfl rfl).1
      (.str "r5") rfl rfl,
   ((c5_sync_throw c5State c5MsgNoRid "work" ⟨none, false⟩ "boom" rfl rfl rfl).2
      rfl).1⟩

/-- Bridge state with a handler for `slow` registered with
`timeout: 100`. -/
def c4State : BridgeState := ⟨[("slow", ⟨some 100, false⟩)], true, [], []⟩

def c4Msg : Json :=
  .obj [("protocol", .str "app://slow"), ("requestId", .str "r4")]

/-- **C4 (counterexample)**: when the handler timeout fires for a
correlated message, the reply actually sent to the web is a
`bridgeResponse` whose payload carries `success: true`; the synthetic
`{success:false, error:"Handler timeout: slow"}` appears only nested
under `data` (the timer calls `respond`, line 76, and the dispatch-level
`respond` always wraps with `success: true`, lines 142-146).  The reply
does not carry `success: false` at the reply level as the claim
states. -/
theorem c4_counterexample :
    (afterEvents (handleBridgeMessage c4State (some c4Msg) (.returns []))
        [.timerFires]).sent
      = [⟨"bridgeResponse", successReply (.str "r4") (timeoutData "slow")⟩] ∧
    (successReply (.str "r4") (timeoutData "slow")).getField "success"
      = some (.bool true) ∧
    (successReply (.str "r4") (timeoutData "slow")).getField "success"
      ≠ some (.bool false) := by
  refine ⟨rfl, rfl, fun h => ?_⟩
  rw [show (successReply (.str "r4") (timeoutData "slow")).getField "success"
      = some (.bool true) from rfl] at h
  simp at h

/-- Unfolding one post-dispatch event. -/
theorem runEvents_cons (p : Invocation × BridgeState) (ev : PostEvent)
    (evs : List PostEvent) :
    runEvents p (ev :: evs) = runEvents (stepEvent p ev) evs := rfl

/-- The timer firing on a pending invocation settles it and routes the
synthetic timeout data through `respond`. -/
theorem fireTimer_pending (a : String) (r : Option Json) (st : BridgeState) :
    fireTimer ⟨a, r, false, true⟩ st
      = (⟨a, r, true, false⟩, dispatchRespond r st (timeoutData a)) := rfl

/-- `respond` on a truthy request id with an attached WebView appends
exactly the wrapped success reply. -/
theorem dispatchRespond_truthy (st : BridgeState) (r d : Json)
    (htr : r.truthy = true) (hAtt : st.webViewAttached = true) :
    dispatchRespond (some r) st d
      = { st with sent := st.sent ++ [⟨"bridgeResponse", successReply r d⟩] } := by
  simp [dispatchRespond, replyIfTruthy, htr, sendToWeb, hAtt]

/-- **C4 (amended)**: for a handler registered with a truthy timeout
that has not responded when the timer fires, and a correlated message,
the single reply sent is `bridgeResponse` with payload
`{requestId, success:true, data:{success:false, error:"Handler timeout:
<action>"}}` — and nothing further is sent even if the handler calls
`respond` (or anything else happens) afterwards. -/
theorem c4_handler_timeout (st : BridgeState) (data : Json) (a : String)
    (t : Nat) (b : Bool) (r : Json) (evs : List PostEvent)
    (hact : getBridgeAction data = some a)
    (hl : st.handlers.lookup a = some ⟨some t, b⟩)
    (ht : (t != 0) = true)
    (hr : data.getField "requestId" = some r)
    (htr : r.truthy = true)
    (hAtt : st.webViewAttached = true) :
    (afterEvents (handleBridgeMessage st (some data) (.returns []))
        (.timerFires :: evs)).sent
      = st.sent ++ [⟨"bridgeResponse", successReply r (timeoutData a)⟩] := by
  have harm : HandlerOptions.timerArmed ⟨some t, b⟩ = true := by
    simp [HandlerOptions.timerArmed, ht]
  have hatt1 : (preInvoke st a (data.getField "payload") ⟨some t, b⟩).webViewAttached
      = true := by rw [preInvoke_attached]; exact hAtt
  simp only [handleBridgeMessage, hact, hl, invokeHandler, afterEvents, hr]
  simp only [runSync, List.foldl_nil]
  rw [runEvents_cons, harm]
  simp only [stepEvent]
  rw [fireTimer_pending, dispatchRespond_truthy _ _ _ htr hatt1]
  rw [runEvents_settled evs ⟨a, some r, true, false⟩ _ rfl rfl]
  simp [preInvoke_sent]

/-- Witness for the amended C4 at the `slow` handler: the timer fires,
then the handler belatedly calls `respond` — only the timeout reply is
ever sent. -/
theorem c4_handler_timeout_witness :
    (afterEvents (handleBridgeMessage c4State (some c4Msg) (.returns []))
        [.timerFires, .respondCall (.str "tardy")]).sent
      = c4State.sent
        ++ [⟨"bridgeResponse", successReply (.str "r4") (timeoutData "slow")⟩] :=
  c4_handler_timeout c4State c4Msg "slow" 100 false (.str "r4")
    [.respondCall (.str "tardy")] rfl rfl rfl rfl rfl rfl

/-- Deleting a key makes its lookup fail. -/
theorem removeHandler_lookup_self (hs : List (String × HandlerOptions))
    (a : String) : (removeHandler hs a).lookup a = none := by
  induction hs with
  | nil => rfl
  | cons p ps ih =>
      rcases p with ⟨k, o⟩
      by_cases hk : k = a
      · subst hk
        simp only [removeHandler, List.filter_cons, bne_self_eq_false,
          Bool.false_eq_true, if_false]
        exact ih
      · have hka : (k == a) = false := by
          simp [hk]
        have hak : (a == k) = false := by
          simp
          exact fun h => hk h.symm
        simp only [removeHandler, List.filter_cons, bne, hka, Bool.not_false,
          if_true, List.lookup, hak]
        exact ih

/-- Dispatch never changes whether the WebView is attached. -/
theorem handleBridgeMessage_attached (st : BridgeState) (decoded : Option Json)
    (script : SyncScript) :
    ((handleBridgeMessage st decoded script).state).webViewAttached
      = st.webViewAttached := by
  cases decoded with
  | none => rfl
  | some data =>
      cases hact : getBridgeAction data with
      | none => simp only [handleBridgeMessage, hact]
      | some a =>
          cases hl : st.handlers.lookup a with
          | none =>
              simp only [handleBridgeMessage, hact, hl]
              exact replyIfTruthy_attached ..
          | some opts =>
              cases script with
              | returns calls =>
                  simp only [handleBridgeMessage, hact, hl, invokeHandler]
                  rw [runSync_attached, preInvoke_attached]
              | throws pre msg =>
                  simp only [handleBridgeMessage, hact, hl, invokeHandler]
                  rw [replyIfTruthy_attached, runSync_attached, preInvoke_attached]

/-- **C7**: a handler registered with `once: true` is deleted from the
registry by its first dispatch — before the handler body runs, so the
deletion happens whether the handler responds, does nothing, or throws —
and a second correlated message for the same action is answered with the
`Unknown action` failure reply. -/
theorem c7_once_single_lookup (st : BridgeState) (data : Json) (a : String)
    (dto : Option Nat) (r : Json) (script script2 : SyncScript)
    (hact : getBridgeAction data = some a)
    (hl : st.handlers.lookup a = some ⟨dto, true⟩)
    (hr : data.getField "requestId" = some r)
    (htr : r.truthy = true)
    (hAtt : st.webViewAttached = true) :
    ((handleBridgeMessage st (some data) script).state).handlers.lookup a = none ∧
    (handleBridgeMessage (handleBridgeMessage st (some data) script).state
        (some data) script2).state.sent
      = (handleBridgeMessage st (some data) script).state.sent
        ++ [⟨"bridgeResponse", failureReply r ("Unknown action: " ++ a)⟩] := by
  have h1 : ((handleBridgeMessage st (some data) script).state).handlers.lookup a
      = none := by
    cases script with
    | returns calls =>
        simp only [handleBridgeMessage, hact, hl, invokeHandler]
        rw [runSync_handlers, preInvoke_handlers_once _ _ _ _ rfl,
          removeHandler_lookup_self]
    | throws pre msg =>
        simp only [handleBridgeMessage, hact, hl, invokeHandler]
        rw [replyIfTruthy_handlers, runSync_handlers,
          preInvoke_handlers_once _ _ _ _ rfl, removeHandler_lookup_self]
  have hA1 : ((handleBridgeMessage st (some data) script).state).webViewAttached
      = true := by rw [handleBridgeMessage_attached]; exact hAtt
  refine ⟨h1, ?_⟩
  set st1 := (handleBridgeMessage st (some data) script).state with hst1
  simp only [handleBridgeMessage, hact, h1, hr]
  simp [replyIfTruthy, htr, sendToWeb, hA1]

/-- Bridge state with a `once` handler for `init`. -/
def c7State : BridgeState := ⟨[("init", ⟨none, true⟩)], true, [], []⟩

def c7Msg : Json :=
  .obj [("protocol", .str "app://init"), ("requestId", .str "r7")]

/-- Witness for C7: the `once` handler for `init` answers the first
message; the second identical message is answered `Unknown action:
init`. -/
theorem c7_once_single_lookup_witness :
    ((handleBridgeMessage c7State (some c7Msg) (.returns [.str "done"])).state).handlers.lookup "init"
      = none ∧
    (handleBridgeMessage
        (handleBridgeMessage c7State (some c7Msg) (.returns [.str "done"])).state
        (some c7Msg) (.returns [.str "done"])).state.sent
      = (handleBridgeMessage c7State (some c7Msg) (.returns [.str "done"])).state.sent
        ++ [⟨"bridgeResponse", failureReply (.str "r7") ("Unknown action: " ++ "init")⟩] :=
  c7_once_single_lookup c7State c7Msg "init" none (.str "r7")
    (.returns [.str "done"]) (.returns [.str "done"]) rfl rfl rfl rfl rfl

/-- Bridge state with one persistent handler for `echo`. -/
def c1State : BridgeState := ⟨[("echo", ⟨none, false⟩)], true, [], []⟩

/-- A well-shaped bridge message whose `__token` differs from any
session token: the content-side client attaches the generated session
token under `__token` (bridge-client.ts lines 136-141), so a spoofed
message is one carrying a different value there. -/
def c1Msg : Json :=
  .obj [("protocol", .str "app://echo"), ("payload", .obj [("x", .num 1)]),
        ("requestId", .str "r1"), ("__token", .str "attacker-token")]

/-- **C1**: `handleBridgeMessage` performs no token verification — it
never reads `__token` (bridge.ts lines 119-177 consult only `protocol`,
`payload` and `requestId`).  A message with a wrong token is dispatched
exactly like a legitimate one: the handler is invoked with the payload
and a success reply is sent, contradicting the claim that no handler is
invoked and no reply is sent. -/
theorem c1_token_not_verified :
    (handleBridgeMessage c1State (some c1Msg) (.returns [.str "ok"])).handled
      = true ∧
    (handleBridgeMessage c1State (some c1Msg) (.returns [.str "ok"])).state.invoked
      = [("echo", some (.obj [("x", .num 1)]))] ∧
    (handleBridgeMessage c1State (some c1Msg) (.returns [.str "ok"])).state.sent
      = [⟨"bridgeResponse", successReply (.str "r1") (.str "ok")⟩] :=
  ⟨rfl, rfl, rfl⟩

/-- Empty bridge state with an attached WebView. -/
def c2State : BridgeState := ⟨[], true, [], []⟩

/-- A generated request id (`Date.now()-random`, bridge.ts line 220). -/
def c2Rid : String := "1700000000000-k3j9q2w7x"

/-- A successful reply arriving after the timeout has already fired. -/
def c2LateReply : Json :=
  .obj [("success", .bool true), ("data", .str "late")]

/-- **C2**: the `callWeb` timeout callback (bridge.ts lines 223-225)
only rejects the promise: the one-shot reply handler
`__response_<requestId>` registered at line 229 is NOT removed when the
timeout fires — `unregisterHandler` is called only inside the reply
handler (line 231) — so a late reply still finds the stale entry and
runs it (it is removed only then; the settled promise is unaffected). -/
theorem c2_timeout_no_cleanup :
    ((callWeb c2State "ping" [] c2Rid).1).handlers.lookup
        (responseHandlerName c2Rid) = some ⟨none, false⟩ ∧
    (callWebTimeout "ping" (callWeb c2State "ping" [] c2Rid)).2.promise
      = .rejectedWith "Request timeout: ping" ∧
    (callWebTimeout "ping" (callWeb c2State "ping" [] c2Rid)).1.handlers
      = [(responseHandlerName c2Rid, ⟨none, false⟩)] ∧
    (callWebOnResponse (callWebTimeout "ping" (callWeb c2State "ping" [] c2Rid))
        c2LateReply).2.promise = .rejectedWith "Request timeout: ping" ∧
    (callWebOnResponse (callWebTimeout "ping" (callWeb c2State "ping" [] c2Rid))
        c2LateReply).1.handlers = [] :=
  ⟨rfl, rfl, rfl, rfl, rfl⟩

/-- Empty bridge state whose WebView is detached
(`setBridgeWebView(null)`). -/
def c9State : BridgeState := ⟨[], false, [], []⟩

/-- **C9 (counterexample)**: with no WebView attached, `callWeb` does
not reject immediately: right after the call the promise is still
pending (the request message was silently dropped), and it becomes
rejected only when the timeout fires. -/
theorem c9_counterexample :
    (callWeb c9State "ping" [] "1700000000000-abc").2.promise = .pending ∧
    (callWeb c9State "ping" [] "1700000000000-abc").1.sent = [] ∧
    (PromiseState.pending ≠ .rejectedWith "Request timeout: ping") ∧
    (callWebTimeout "ping" (callWeb c9State "ping" [] "1700000000000-abc")).2.promise
      = .rejectedWith "Request timeout: ping" :=
  ⟨rfl, rfl, fun h => PromiseState.noConfusion h, rfl⟩

/-- **C9 (amended)**: with no content surface attached, `sendToWeb`
no-ops without throwing, and a `callWeb` request is silently dropped:
the promise stays pending — it does NOT reject immediately — and
rejects with `Request timeout: <action>` only when its timeout fires. -/
theorem c9_detached (st : BridgeState) (a a2 : String) (j : Json)
    (payload : List (String × Json)) (rid : String)
    (hAtt : st.webViewAttached = false) :
    sendToWeb st a2 j = st ∧
    (callWeb st a payload rid).1.sent = st.sent ∧
    (callWeb st a payload rid).2.promise = .pending ∧
    (callWebTimeout a (callWeb st a payload rid)).2.promise
      = .rejectedWith ("Request timeout: " ++ a) := by
  refine ⟨?_, ?_, rfl, rfl⟩
  · simp [sendToWeb, hAtt]
  · simp [callWeb, sendToWeb, registerHandlerSt, hAtt]

/-- Witness for the amended C9 at the detached state. -/
theorem c9_detached_witness :
    sendToWeb c9State "toast" (.str "hi") = c9State ∧
    (callWeb c9State "ping" [] "1700000000000-abc").1.sent = c9State.sent ∧
    (callWeb c9State "ping" [] "1700000000000-abc").2.promise = .pending ∧
    (callWebTimeout "ping" (callWeb c9State "ping" [] "1700000000000-abc")).2.promise
      = .rejectedWith ("Request timeout: " ++ "ping") :=
  c9_detached c9State "ping" "toast" (.str "hi") [] "1700000000000-abc" rfl

end Bridge
